import Mathlib

/-!
Shallow embedding of the `simulate_evm` service core: the request-validation
frontend (`src/trace.rs`), the error taxonomy (`src/error.rs`), the response
shapes (`src/types.rs`) and the sequential executor loop (`src/main.rs`).
External collaborators (the revm_trace simulator, the token resolver, the
network providers, the bounded channel and the one-shot completion handle)
are modelled as explicit parameters, following the specification's
description of their contracts.
-/

namespace SimulateEvm

/-- Addresses (20-byte account identifiers) modelled as natural numbers. -/
abbrev Address := Nat

/-- Native-asset sentinel address `NATIVE_TOKEN_ADDRESS` exported by the
tracing library (the conventional all-`e` sentinel). -/
def NATIVE_TOKEN_ADDRESS : Address := 0xeeeeeeeeeeeeeeeeeeeeeeeeeeeeeeeeeeeeeeee

/-- Token metadata (`revm_trace::types::TokenInfo`): symbol and decimals. -/
structure TokenInfo where
  symbol : String
  decimals : Nat
deriving DecidableEq

/-- One configured network entry (`types.rs`, `ChainInfo`). -/
structure ChainInfo where
  chain_id : Nat
  rpc_url : String
  symbol : String
  decimals : Nat
deriving DecidableEq

/-- Modelled from the spec: the external library's per-transaction
`ExecutionResult`, reduced to its success/failure indicator (the glossary's
"success/failure indicator"); payload details are irrelevant here. -/
inductive ExecutionResult where
  | success
  | revert
  | halt
deriving DecidableEq

/-- Success test on an execution result (`ExecutionResult::is_success`). -/
def ExecutionResult.is_success : ExecutionResult → Bool
  | .success => true
  | _ => false

/-- Modelled from the spec: an asset-transfer record reported by the
simulator; only the asset's address matters to the dispatch core. -/
structure AssetTransfer where
  token : Address
deriving DecidableEq

/-- Modelled from the spec: the trace payload of one simulated transaction,
carrying its observed asset transfers (`TxTraceOutput.asset_transfers`). -/
structure TxTraceOutput where
  asset_transfers : List AssetTransfer
deriving DecidableEq

/-- Simulator-level error (`revm_trace::errors::EvmError`), modelled as its
message text. -/
abbrev EvmError := String

/-- Destination kind of a simulated transaction (`alloy TxKind`). -/
inductive TxKind where
  | Call (a : Address)
  | Create
deriving DecidableEq

/-- One prepared simulated transaction (`revm_trace::SimulationTx`). -/
structure SimulationTx where
  caller : Address
  transact_to : TxKind
  value : Nat
  data : List Nat
deriving DecidableEq

/-- Execution block context (`revm_trace::BlockEnv`). -/
structure BlockEnv where
  number : Nat
  timestamp : Nat
deriving DecidableEq

/-- A prepared batch (`revm_trace::SimulationBatch`). -/
structure SimulationBatch where
  block_env : BlockEnv
  transactions : List SimulationTx
  is_stateful : Bool
deriving DecidableEq

/-- Resolved token map (the executor's `token_infos_map`); a `HashMap`
modelled as an association list whose first matching key wins. -/
abbrev TokenMap := List (Address × TokenInfo)

/-- HashMap insertion: the new binding replaces any previous binding of the
same key. -/
def mapInsert (m : TokenMap) (k : Address) (v : TokenInfo) : TokenMap :=
  (k, v) :: m.filter (fun p => p.1 ≠ k)

/-- HashMap lookup on the association-list model. -/
def lookupToken (m : TokenMap) (k : Address) : Option TokenInfo :=
  (m.find? (fun p => p.1 == k)).map (fun p => p.2)

instance {ε α : Type _} [DecidableEq ε] [DecidableEq α] : DecidableEq (Except ε α) :=
  fun x y =>
    match x, y with
    | Except.ok a, Except.ok b =>
      if h : a = b then isTrue (by rw [h])
      else isFalse (fun hc => h (Except.ok.injEq .. ▸ hc))
    | Except.error a, Except.error b =>
      if h : a = b then isTrue (by rw [h])
      else isFalse (fun hc => h (Except.error.injEq .. ▸ hc))
    | Except.ok _, Except.error _ => isFalse (fun hc => Except.noConfusion hc)
    | Except.error _, Except.ok _ => isFalse (fun hc => Except.noConfusion hc)

/-- Executor-to-frontend payload (`types.rs`, `TraceResponse`). -/
structure TraceResponse where
  result : Except String (List (Except EvmError (ExecutionResult × TxTraceOutput)))
  token_infos : Option TokenMap
deriving DecidableEq

/-- A queued Job (`types.rs`, `TxRequest`); the one-shot completion handle is
modelled outside the data (delivery is an effect of the executor loop). -/
structure TxRequest where
  chain_id : Nat
  txs : SimulationBatch
deriving DecidableEq

/-- The service error taxonomy (`error.rs`, `SimulateError`). -/
inductive SimulateError where
  | AddressParseError (msg : String)
  | Uint256ParseError (msg : String)
  | InvalidOperation (msg : String)
  | ChainNotFound (chain_id : Nat)
  | HexDecodeError (msg : String)
  | AnyhowError (msg : String)
  | SimulationError (msg : String)
deriving DecidableEq

/-- Display rendering of an error (`error.rs`, `impl fmt::Display`). -/
def displaySimulateError : SimulateError → String
  | .AddressParseError e => "Address parse error: " ++ e
  | .Uint256ParseError e => "Uint256 parse error: " ++ e
  | .InvalidOperation e => "Invalid operation: " ++ e
  | .ChainNotFound cid => "Chain not found: " ++ toString cid
  | .HexDecodeError e => "Hex decode error: " ++ e
  | .AnyhowError e => "Anyhow error: " ++ e
  | .SimulationError e => "Simulation error: " ++ e

/-- Test whether an error is carried by the `SimulationError` constructor
(the "simulation error" class of `error.rs`). -/
def SimulateError.isSimulationClass : SimulateError → Bool
  | .SimulationError _ => true
  | _ => false

/-- Rendered HTTP response: `error.rs` renders every `SimulateError` as
status 400 with an `error` body; the success path renders status 200. -/
structure HttpResponseModel where
  status : Nat
  error_body : Option String
deriving DecidableEq

/-- One raw request entry (`trace.rs`, `TraceRequestSingle`); the Rust
fields `from` and `to` are Lean keywords and are rendered `from_addr` and
`to_addr`. -/
structure TraceRequestSingle where
  from_addr : String
  to_addr : Option String
  value : Option String
  data : Option String
  operation : Nat
deriving DecidableEq

/-- The raw batch request (`trace.rs`, `BatchTraceRequest`). -/
structure BatchTraceRequest where
  chain_id : Nat
  is_stateful : Bool
  block_number : Option Nat
  requests : List TraceRequestSingle
deriving DecidableEq

/-- Hexadecimal digit value of a character, if any. -/
def hexDigitVal? (c : Char) : Option Nat :=
  if c.isDigit then some (c.toNat - 48)
  else if 'a' ≤ c ∧ c ≤ 'f' then some (c.toNat - 87)
  else if 'A' ≤ c ∧ c ≤ 'F' then some (c.toNat - 55)
  else none

/-- Decimal digit value of a character, if any. -/
def decDigitVal? (c : Char) : Option Nat :=
  if c.isDigit then some (c.toNat - 48) else none

/-- Parse a nonempty all-decimal character list into a natural number. -/
def parseDecNat? (cs : List Char) : Option Nat :=
  match cs with
  | [] => none
  | _ =>
    cs.foldl
      (fun acc c =>
        match acc, decDigitVal? c with
        | some n, some d => some (n * 10 + d)
        | _, _ => none)
      (some 0)

/-- Parse hex-digit characters into their nibble values, all-or-nothing. -/
def hexNibbles? (cs : List Char) : Option (List Nat) :=
  cs.foldr
    (fun c acc =>
      match hexDigitVal? c, acc with
      | some d, some ds => some (d :: ds)
      | _, _ => none)
    (some [])

/-- Pair up hex-digit characters into byte values; fails on odd length or a
non-hex character. -/
def hexPairs? : List Char → Option (List Nat)
  | [] => some []
  | [_] => none
  | c1 :: c2 :: rest =>
    match hexDigitVal? c1, hexDigitVal? c2, hexPairs? rest with
    | some d1, some d2, some bs => some ((d1 * 16 + d2) :: bs)
    | _, _, _ => none

/-- Strip one leading `0x` marker, as the hex decoders of the alloy stack
accept. -/
def strip0x (s : String) : String :=
  match s.data with
  | '0' :: 'x' :: rest => String.mk rest
  | _ => s

/-- Modelled from the spec: the external base-10 256-bit decoder behind
`parse_u256` (`trace.rs`): "decodes the integer value field as base-10 into
a 256-bit unsigned integer (failure => Uint256ParseError)". -/
def parse_u256 (s : String) : Except SimulateError Nat :=
  match parseDecNat? s.data with
  | some n =>
    if n < 2 ^ 256 then Except.ok n
    else Except.error (SimulateError.Uint256ParseError
      ("Invalid uint256 radix of decimal format: " ++ s))
  | none => Except.error (SimulateError.Uint256ParseError
      ("Invalid uint256 radix of decimal format: " ++ s))

/-- Modelled from the spec: the external address decoder behind
`parse_address` (`trace.rs`): a 20-byte hex string, optionally `0x`-prefixed
(failure => AddressParseError). -/
def parse_address (s : String) : Except SimulateError Address :=
  match hexNibbles? (strip0x s).data with
  | some ds =>
    if ds.length = 40 then Except.ok (ds.foldl (fun a d => a * 16 + d) 0)
    else Except.error (SimulateError.AddressParseError ("Invalid address format: " ++ s))
  | none => Except.error (SimulateError.AddressParseError ("Invalid address format: " ++ s))

/-- Modelled from the spec: the external hex decoder behind the `data` field
("decodes the payload field as hexadecimal"), failing on any non-hex input. -/
def hexDecode (s : String) : Except String (List Nat) :=
  match hexPairs? (strip0x s).data with
  | some bs => Except.ok bs
  | none => Except.error ("Invalid hex string: " ++ s)

/-- Destination resolution for one entry (`trace.rs` lines 59-74): create
forces no destination; call requires one; any other code is rejected. -/
def buildToAddress (r : TraceRequestSingle) : Except SimulateError (Option Address) :=
  if r.operation = 2 then Except.ok none
  else if r.operation = 0 then
    match r.to_addr with
    | none => Except.error (SimulateError.InvalidOperation
        "Operation call must have a to address")
    | some v =>
      match parse_address v with
      | Except.error e => Except.error e
      | Except.ok a => Except.ok (some a)
  else Except.error (SimulateError.InvalidOperation "Invalid operation type")

/-- Value-field resolution (`trace.rs` lines 75-79): a missing value decodes
to zero. -/
def parseValueField (v : Option String) : Except SimulateError Nat :=
  match v with
  | none => Except.ok 0
  | some s => parse_u256 s

/-- Data-field resolution (`trace.rs` lines 80-84): a missing payload decodes
to the empty byte string; a hex failure becomes `HexDecodeError`. -/
def parseDataField (d : Option String) : Except SimulateError (List Nat) :=
  match d with
  | none => Except.ok []
  | some s =>
    match hexDecode s with
    | Except.ok bs => Except.ok bs
    | Except.error e => Except.error (SimulateError.HexDecodeError e)

/-- Validation and construction of one `SimulationTx` from one raw entry
(`trace.rs` lines 57-95), in source evaluation order: sender address, then
destination/operation, then value, then payload. -/
def buildTx (r : TraceRequestSingle) : Except SimulateError SimulationTx :=
  match parse_address r.from_addr with
  | Except.error e => Except.error e
  | Except.ok from_address =>
    match buildToAddress r with
    | Except.error e => Except.error e
    | Except.ok to_address =>
      match parseValueField r.value with
      | Except.error e => Except.error e
      | Except.ok value =>
        match parseDataField r.data with
        | Except.error e => Except.error e
        | Except.ok data =>
          Except.ok
            { caller := from_address
              transact_to :=
                match to_address with
                | some t => TxKind.Call t
                | none => TxKind.Create
              value := value
              data := data }

/-- The frontend's request-construction loop (`trace.rs` lines 56-95): the
first failing entry rejects the whole batch; order is preserved. -/
def validateRequests : List TraceRequestSingle → Except SimulateError (List SimulationTx)
  | [] => Except.ok []
  | r :: rest =>
    match buildTx r with
    | Except.error e => Except.error e
    | Except.ok tx =>
      match validateRequests rest with
      | Except.error e => Except.error e
      | Except.ok txs => Except.ok (tx :: txs)

/-- Outcome of the frontend's wait on the one-shot receiving handle
(`trace.rs` lines 118-121): elapsed timeout, closed channel, or a delivered
response. -/
inductive AwaitOutcome where
  | timeout
  | closed
  | received (resp : TraceResponse)

/-- Mapping of the wait outcome to the frontend's result (`trace.rs` lines
118-121): both failure arms produce `SimulationError`, with distinct
message texts. -/
def awaitResponse : AwaitOutcome → Except SimulateError TraceResponse
  | AwaitOutcome.timeout =>
    Except.error (SimulateError.SimulationError "Trace request timed out")
  | AwaitOutcome.closed =>
    Except.error (SimulateError.SimulationError "Response channel closed")
  | AwaitOutcome.received r => Except.ok r

/-- Per-transaction response shape (`types.rs`, `SimulationResult`). -/
structure SimulationResult where
  block_number : Nat
  error : Option String
  execution_result : Option ExecutionResult
  trace_result : Option TxTraceOutput
deriving DecidableEq

/-- Rendering of one executor outcome into a `SimulationResult` (`trace.rs`
lines 126-137): success clears `error`, failure records only the error
text. -/
def renderResult (block_number : Nat)
    (r : Except EvmError (ExecutionResult × TxTraceOutput)) : SimulationResult :=
  match r with
  | Except.ok (trace_result, trace_output) =>
    { block_number := block_number
      error := none
      execution_result := some trace_result
      trace_result := some trace_output }
  | Except.error e =>
    { block_number := block_number
      error := some ("Trace Error:" ++ e)
      execution_result := none
      trace_result := none }

/-- Rendering of the whole outcome list (`trace.rs` lines 124-137). -/
def renderResults (block_number : Nat)
    (results : List (Except EvmError (ExecutionResult × TxTraceOutput))) :
    List SimulationResult :=
  results.map (renderResult block_number)

/-- The 200-path body (`types.rs`, `BatchSimulationResult`). -/
structure BatchSimulationResult where
  results : List SimulationResult
  token_infos : Option TokenMap
deriving DecidableEq

/-- Frontend handling of a delivered `TraceResponse` (`trace.rs` lines
123-146): a batch-level error becomes a `SimulationError` rejection, a
success becomes the rendered body. -/
def handleResponse (block_number : Nat) (resp : TraceResponse) :
    Except SimulateError BatchSimulationResult :=
  match resp.result with
  | Except.ok results =>
    Except.ok { results := renderResults block_number results
                token_infos := resp.token_infos }
  | Except.error e => Except.error (SimulateError.SimulationError e)

/-- Transport rendering: every `SimulateError` is rendered as HTTP 400 with
the displayed message in the `error` body (`error.rs`, `error_response`);
the success path is HTTP 200 (`trace.rs` line 140). -/
def respond (r : Except SimulateError BatchSimulationResult) : HttpResponseModel :=
  match r with
  | Except.error e => { status := 400, error_body := some (displaySimulateError e) }
  | Except.ok _ => { status := 200, error_body := none }

/-- Outcome of one frontend handler run: the Jobs it queued and the result
it returned. -/
structure FrontendOutcome where
  queued : List TxRequest
  response : Except SimulateError BatchSimulationResult

/-- The `simulate_batch` handler (`trace.rs` lines 40-147). External effects
are explicit parameters: provider presence per chain, the resolved block
environment (network collaborators), whether the queue submission
succeeded, and the awaited outcome of the one-shot handle. -/
def simulate_batch (chainsHas : Nat → Bool)
    (block_env_result : Except String BlockEnv)
    (send_ok : Bool) (await_outcome : AwaitOutcome)
    (req : BatchTraceRequest) : FrontendOutcome :=
  if chainsHas req.chain_id = false then
    { queued := [], response := Except.error (SimulateError.ChainNotFound req.chain_id) }
  else
    match validateRequests req.requests with
    | Except.error e => { queued := [], response := Except.error e }
    | Except.ok transactions =>
      match block_env_result with
      | Except.error e =>
        { queued := [], response := Except.error (SimulateError.AnyhowError e) }
      | Except.ok block_env =>
        let job : TxRequest :=
          { chain_id := req.chain_id
            txs := { block_env := block_env
                     transactions := transactions
                     is_stateful := req.is_stateful } }
        if send_ok = false then
          { queued := []
            response := Except.error (SimulateError.SimulationError
              "Failed to send trace request: channel closed") }
        else
          match awaitResponse await_outcome with
          | Except.error e => { queued := [job], response := Except.error e }
          | Except.ok resp =>
            { queued := [job], response := handleResponse block_env.number resp }

/-- Modelled from the spec: the opaque per-network Simulator
(`revm_trace`'s `process_transactions`), "producing one TransactionOutcome
per spec; a failure in one transaction does not abort the remaining
transactions". -/
structure Simulator where
  run : List SimulationTx → List (Except EvmError (ExecutionResult × TxTraceOutput))
  run_length : ∀ txs, (run txs).length = txs.length

/-- The executor's token-collection push (`main.rs` line 107): append the
token when it is non-native and unseen. -/
def pushToken (tokens : List Address) (token : Address) : List Address :=
  if token ≠ NATIVE_TOKEN_ADDRESS ∧ token ∉ tokens then tokens ++ [token] else tokens

/-- Inner transfer scan of one successful outcome (`main.rs` lines 105-110). -/
def collectTransfers (tokens : List Address) (transfers : List AssetTransfer) :
    List Address :=
  transfers.foldl (fun toks t => pushToken toks t.token) tokens

/-- The executor's token-address collection over a batch result (`main.rs`
lines 101-112): only `Ok` outcomes whose execution succeeded contribute. -/
def collectTokens
    (result : List (Except EvmError (ExecutionResult × TxTraceOutput))) :
    List Address :=
  result.foldl
    (fun tokens r =>
      match r with
      | Except.ok (trace_result, trace_output) =>
        if trace_result.is_success then
          collectTransfers tokens trace_output.asset_transfers
        else tokens
      | Except.error _ => tokens)
    []

/-- Flat stream of all transfer tokens of successful outcomes, in
encounter order (an analysis helper for stating the collection claims). -/
def successTokens :
    List (Except EvmError (ExecutionResult × TxTraceOutput)) → List Address
  | [] => []
  | Except.ok (trace_result, trace_output) :: rest =>
    (if trace_result.is_success
      then trace_output.asset_transfers.map (fun t => t.token)
      else []) ++ successTokens rest
  | Except.error _ :: rest => successTokens rest

/-- Modelled from the spec: "collects the set of distinct non-native asset
addresses referenced (order of first appearance, no duplicates)" — keep
each element's first occurrence, drop later repeats. -/
def firstAppearances : List Address → List Address
  | [] => []
  | a :: l => a :: firstAppearances (l.filter (fun b => b ≠ a))
termination_by l => l.length
decreasing_by
  simp only [List.length_cons, Nat.lt_succ_iff]
  exact List.length_filter_le _ _

/-- Result of one executor iteration body: the single response it built (or
`none` for a panic) and how many delivery attempts it made. -/
structure ExecEffect where
  response : Option TraceResponse
  sendAttempts : Nat
deriving DecidableEq

/-- Zip step of the token-info loop (`main.rs` lines 117-120): each resolved
info is keyed by `tokens[index]`; an out-of-range index is the `none`
(panic) case. -/
def buildTokenMapGo (tokens : List Address) :
    List TokenInfo → Nat → TokenMap → Option TokenMap
  | [], _, m => some m
  | info :: rest, i, m =>
    match tokens.get? i with
    | none => none
    | some t => buildTokenMapGo tokens rest (i + 1) (mapInsert m t info)

/-- The token-info map construction (`main.rs` lines 114-120). -/
def buildTokenMap (tokens : List Address) (infos : List TokenInfo) : Option TokenMap :=
  buildTokenMapGo tokens infos 0 []

/-- One iteration body of the sequential executor (`main.rs` lines 85-145)
for a dequeued Job: simulator lookup, batch execution, token collection and
resolution, native-asset insertion, and the single delivery attempt.
`none` responses model the two `panic` sites (`tokens[index]` out of range
and the `chains_map` `unwrap`), where no send is reached. -/
def executorStepE (evm_cache : Nat → Option Simulator)
    (chains_map : Nat → Option ChainInfo)
    (resolve : List Address → Except String (List TokenInfo))
    (req : TxRequest) : ExecEffect :=
  match evm_cache req.chain_id with
  | none =>
    { response := some
        { result := Except.error
            ("EVM instance not found for chain " ++ toString req.chain_id)
          token_infos := none }
      sendAttempts := 1 }
  | some evm =>
    let result := evm.run req.txs.transactions
    let tokens := collectTokens result
    match resolve tokens with
    | Except.error e =>
      { response := some
          { result := Except.error ("Failed to get token infos: " ++ e)
            token_infos := none }
        sendAttempts := 1 }
    | Except.ok infos =>
      match buildTokenMap tokens infos with
      | none => { response := none, sendAttempts := 0 }
      | some m =>
        match chains_map req.chain_id with
        | none => { response := none, sendAttempts := 0 }
        | some native_info =>
          { response := some
              { result := Except.ok result
                token_infos := some (mapInsert m NATIVE_TOKEN_ADDRESS
                  { symbol := native_info.symbol
                    decimals := native_info.decimals }) }
            sendAttempts := 1 }

/-- The executor loop (`main.rs` lines 79-146) over the queued Jobs, with
the per-iteration shutdown check and per-Job receiver liveness made
explicit. A Job is dequeued first; if the shutdown signal is observed the
loop exits and that Job is discarded without execution or delivery. Each
produced entry records the iteration index, the iteration's effect, and
whether its delivery attempt succeeded (`let _ = response_tx.send(..)`:
failures are swallowed). -/
def mainLoop (step : TxRequest → ExecEffect) (shutdown : Nat → Bool)
    (alive : Nat → Bool) : List TxRequest → Nat → List (Nat × ExecEffect × Bool)
  | [], _ => []
  | req :: rest, i =>
    if shutdown i then []
    else (i, step req, (step req).response.isSome && alive i) ::
      mainLoop step shutdown alive rest (i + 1)

/-- The startup `chains_map` (`main.rs` lines 34-37): a HashMap built by
inserting every configured entry, so the last entry with a given id wins. -/
def chainsMapOf (chains : List ChainInfo) : Nat → Option ChainInfo :=
  fun cid => (chains.filter (fun c => c.chain_id == cid)).getLast?

/-- The startup `evm_cache` (`main.rs` lines 47-59): one simulator per
`chains_map` entry, hence defined exactly on the `chains_map` keys. -/
def evmCacheOf (chains : List ChainInfo) (mk : ChainInfo → Simulator) :
    Nat → Option Simulator :=
  fun cid => ((chains.filter (fun c => c.chain_id == cid)).getLast?).map mk

/-- Append-if-unseen on an already-native-free token stream; the shape the
collection loop takes once native transfers are filtered away. -/
def pushNew (toks : List Address) (t : Address) : List Address :=
  if t ∈ toks then toks else toks ++ [t]

/-- Sample configured network used by concrete witnesses. -/
def sampleChain : ChainInfo :=
  { chain_id := 1, rpc_url := "http://localhost:8545", symbol := "ETH", decimals := 18 }

/-- Sample token metadata used by concrete witnesses. -/
def sampleTokenInfo : TokenInfo := { symbol := "TKN", decimals := 6 }

/-- Sample simulator whose transactions all fail. -/
def failingSim : Simulator :=
  { run := fun txs => txs.map (fun _ => Except.error "execution reverted")
    run_length := by intro txs; simp }

/-- Sample simulator whose transactions all succeed with no transfers. -/
def quietSim : Simulator :=
  { run := fun txs => txs.map
      (fun _ => Except.ok (ExecutionResult.success, { asset_transfers := [] }))
    run_length := by intro txs; simp }

/-- Sample block environment. -/
def sampleBlockEnv : BlockEnv := { number := 100, timestamp := 1700000000 }

/-- Sample prepared transaction. -/
def sampleTx : SimulationTx :=
  { caller := 1, transact_to := TxKind.Create, value := 0, data := [] }

/-- Sample one-transaction batch Job against chain 1. -/
def sampleJob : TxRequest :=
  { chain_id := 1
    txs := { block_env := sampleBlockEnv
             transactions := [sampleTx]
             is_stateful := false } }

/-- Sample executor outcome list: a successful outcome with transfers
(token 5 repeated, the native sentinel, token 7), a failed transaction and
a reverted one (token 9 must not be collected). -/
def sampleOutcomes : List (Except EvmError (ExecutionResult × TxTraceOutput)) :=
  [ Except.ok (ExecutionResult.success,
      { asset_transfers := [ { token := 5 }, { token := NATIVE_TOKEN_ADDRESS },
                             { token := 7 }, { token := 5 } ] })
  , Except.error "out of gas"
  , Except.ok (ExecutionResult.revert, { asset_transfers := [ { token := 9 } ] }) ]

/-- Sample well-formed sender address (40 hex digits). -/
def goodAddr : String := "0x00000000000000000000000000000000000000aa"

/-- Sample call entry with a missing destination. -/
def callNoToEntry : TraceRequestSingle :=
  { from_addr := goodAddr, to_addr := none, value := none, data := none, operation := 0 }

/-- Sample entry using the reserved delegate-call code. -/
def delegateEntry : TraceRequestSingle :=
  { from_addr := goodAddr, to_addr := some goodAddr, value := none, data := none
    operation := 1 }

/-- Sample create entry that does carry a destination field. -/
def createEntry : TraceRequestSingle :=
  { from_addr := goodAddr, to_addr := some goodAddr, value := none, data := none
    operation := 2 }

/-- Sample call entry with null value and data fields. -/
def nullFieldsEntry : TraceRequestSingle :=
  { from_addr := goodAddr, to_addr := some goodAddr, value := none, data := none
    operation := 0 }

/-- Sample call entry with an unparsable value field. -/
def badValueEntry : TraceRequestSingle :=
  { from_addr := goodAddr, to_addr := some goodAddr, value := some "10f0", data := none
    operation := 0 }

/-- Sample call entry with an unparsable data field. -/
def badDataEntry : TraceRequestSingle :=
  { from_addr := goodAddr, to_addr := some goodAddr, value := none, data := some "zz"
    operation := 0 }

/-- Transaction built from the null-fields sample entry. -/
def nullFieldsTx : SimulationTx :=
  { caller := 170, transact_to := TxKind.Call 170, value := 0, data := [] }

/-- Sample batch request carrying the delegate-call entry. -/
def delegateBatchRequest : BatchTraceRequest :=
  { chain_id := 1, is_stateful := false, block_number := none
    requests := [delegateEntry] }

/-! Helper lemmas about the validation pipeline. -/

theorem parse_address_error_shape (s : String) (e : SimulateError)
    (h : parse_address s = Except.error e) : ∃ m, e = SimulateError.AddressParseError m := by
  unfold parse_address at h
  split at h
  · split at h
    · exact absurd h (by simp)
    · exact ⟨_, (Except.error.injEq .. ▸ h).symm⟩
  · exact ⟨_, (Except.error.injEq .. ▸ h).symm⟩

theorem parse_u256_error_shape (s : String) (e : SimulateError)
    (h : parse_u256 s = Except.error e) : ∃ m, e = SimulateError.Uint256ParseError m := by
  unfold parse_u256 at h
  split at h
  · split at h
    · exact absurd h (by simp)
    · exact ⟨_, (Except.error.injEq .. ▸ h).symm⟩
  · exact ⟨_, (Except.error.injEq .. ▸ h).symm⟩

theorem buildToAddress_create (r : TraceRequestSingle) (h : r.operation = 2) :
    buildToAddress r = Except.ok none := by
  simp [buildToAddress, h]

theorem buildToAddress_call_missing (r : TraceRequestSingle) (h0 : r.operation = 0)
    (hto : r.to_addr = none) :
    buildToAddress r = Except.error
      (SimulateError.InvalidOperation "Operation call must have a to address") := by
  simp [buildToAddress, h0, hto]

theorem buildToAddress_invalid (r : TraceRequestSingle) (h0 : r.operation ≠ 0)
    (h2 : r.operation ≠ 2) :
    buildToAddress r = Except.error
      (SimulateError.InvalidOperation "Invalid operation type") := by
  simp [buildToAddress, h0, h2]

theorem buildToAddress_error_shape (r : TraceRequestSingle) (e : SimulateError)
    (h : buildToAddress r = Except.error e) :
    (∃ m, e = SimulateError.InvalidOperation m) ∨
      (∃ m, e = SimulateError.AddressParseError m) := by
  unfold buildToAddress at h
  split at h
  · exact absurd h (by simp)
  · split at h
    · split at h
      · exact Or.inl ⟨_, (Except.error.injEq .. ▸ h).symm⟩
      · split at h
        · rename_i heq
          exact Or.inr (parse_address_error_shape _ _ ((Except.error.injEq .. ▸ h) ▸ heq))
        · exact absurd h (by simp)
    · exact Or.inl ⟨_, (Except.error.injEq .. ▸ h).symm⟩

theorem parseValueField_error_shape (v : Option String) (e : SimulateError)
    (h : parseValueField v = Except.error e) :
    ∃ s, v = some s ∧ parse_u256 s = Except.error e := by
  unfold parseValueField at h
  split at h
  · exact absurd h (by simp)
  · exact ⟨_, rfl, h⟩

theorem parseDataField_error_shape (d : Option String) (e : SimulateError)
    (h : parseDataField d = Except.error e) :
    ∃ s m, d = some s ∧ hexDecode s = Except.error m ∧ e = SimulateError.HexDecodeError m := by
  unfold parseDataField at h
  split at h
  · exact absurd h (by simp)
  · rename_i s
    split at h
    · exact absurd h (by simp)
    · rename_i m heq
      refine ⟨s, m, rfl, heq, (Except.error.injEq .. ▸ h).symm⟩

theorem buildTx_toAddress_error (r : TraceRequestSingle) (e : SimulateError)
    (hok : (parse_address r.from_addr).isOk = true)
    (hb : buildToAddress r = Except.error e) : buildTx r = Except.error e := by
  unfold buildTx
  cases hpa : parse_address r.from_addr with
  | error e2 => rw [hpa] at hok; exact absurd hok (by simp [Except.isOk, Except.toBool])
  | ok a => rw [hb]

theorem buildTx_ok_inversion (r : TraceRequestSingle) (tx : SimulationTx)
    (h : buildTx r = Except.ok tx) :
    ∃ a topt v d, parse_address r.from_addr = Except.ok a
      ∧ buildToAddress r = Except.ok topt
      ∧ parseValueField r.value = Except.ok v
      ∧ parseDataField r.data = Except.ok d
      ∧ tx = { caller := a
               transact_to :=
                 match topt with
                 | some t => TxKind.Call t
                 | none => TxKind.Create
               value := v
               data := d } := by
  unfold buildTx at h
  split at h
  · exact absurd h (by simp)
  · rename_i a hpa
    split at h
    · exact absurd h (by simp)
    · rename_i topt hto
      split at h
      · exact absurd h (by simp)
      · rename_i v hv
        split at h
        · exact absurd h (by simp)
        · rename_i d hd
          exact ⟨a, topt, v, d, hpa, hto, hv, hd, (Except.ok.inj h).symm⟩

theorem buildTx_error_inversion (r : TraceRequestSingle) (e : SimulateError)
    (h : buildTx r = Except.error e) :
    parse_address r.from_addr = Except.error e
    ∨ buildToAddress r = Except.error e
    ∨ parseValueField r.value = Except.error e
    ∨ parseDataField r.data = Except.error e := by
  unfold buildTx at h
  split at h
  · rename_i hpa
    exact Or.inl ((Except.error.injEq .. ▸ h) ▸ hpa)
  · split at h
    · rename_i hto
      exact Or.inr (Or.inl ((Except.error.injEq .. ▸ h) ▸ hto))
    · split at h
      · rename_i hv
        exact Or.inr (Or.inr (Or.inl ((Except.error.injEq .. ▸ h) ▸ hv)))
      · split at h
        · rename_i hd
          exact Or.inr (Or.inr (Or.inr ((Except.error.injEq .. ▸ h) ▸ hd)))
        · exact absurd h (by simp)

theorem validateRequests_length (reqs : List TraceRequestSingle)
    (txs : List SimulationTx) (h : validateRequests reqs = Except.ok txs) :
    txs.length = reqs.length := by
  induction reqs generalizing txs with
  | nil =>
    unfold validateRequests at h
    simp only [Except.ok.injEq] at h
    simp [← h]
  | cons r rest ih =>
    unfold validateRequests at h
    split at h
    · exact absurd h (by simp)
    · split at h
      · exact absurd h (by simp)
      · rename_i tx htx txs2 hrest
        simp only [Except.ok.injEq] at h
        simp [← h, ih txs2 hrest]

/-! Claim theorems. -/

/-- C1: operation code 0 (call) with a missing destination is rejected with
`InvalidOperation`; operation code 2 (create) builds a destination-free
(`Create`) transaction, ignoring any supplied destination; every other
operation code (including the reserved delegate-call code 1) is rejected
with `InvalidOperation`; and any such validation failure rejects the batch
with no Job queued. -/
theorem c1_operation_code_validation :
    (∀ r : TraceRequestSingle, r.operation = 0 → r.to_addr = none →
      (parse_address r.from_addr).isOk = true →
      buildTx r = Except.error
        (SimulateError.InvalidOperation "Operation call must have a to address"))
    ∧ (∀ r : TraceRequestSingle, r.operation = 2 → buildToAddress r = Except.ok none)
    ∧ (∀ (r : TraceRequestSingle) (tx : SimulationTx), r.operation = 2 →
      buildTx r = Except.ok tx → tx.transact_to = TxKind.Create)
    ∧ (∀ r : TraceRequestSingle, r.operation ≠ 0 → r.operation ≠ 2 →
      (parse_address r.from_addr).isOk = true →
      buildTx r = Except.error (SimulateError.InvalidOperation "Invalid operation type"))
    ∧ (∀ chainsHas benv send_ok aw (req : BatchTraceRequest) (e : SimulateError),
      chainsHas req.chain_id = true →
      validateRequests req.requests = Except.error e →
      simulate_batch chainsHas benv send_ok aw req =
        { queued := [], response := Except.error e }) := by
  refine ⟨?_, ?_, ?_, ?_, ?_⟩
  · intro r h0 hto hok
    exact buildTx_toAddress_error r _ hok (buildToAddress_call_missing r h0 hto)
  · intro r h2
    exact buildToAddress_create r h2
  · intro r tx h2 htx
    obtain ⟨a, topt, v, d, _, hto, _, _, htx⟩ := buildTx_ok_inversion r tx htx
    rw [buildToAddress_create r h2] at hto
    rw [htx, ← Except.ok.inj hto]
  · intro r h0 h2 hok
    exact buildTx_toAddress_error r _ hok (buildToAddress_invalid r h0 h2)
  · intro chainsHas benv send_ok aw req e hchain hval
    unfold simulate_batch
    rw [hchain, hval]
    rfl

/-- C1 witness: concrete inputs exercising every conjunct of the claim. -/
theorem c1_operation_code_validation_witness :
    buildTx callNoToEntry = Except.error
      (SimulateError.InvalidOperation "Operation call must have a to address")
    ∧ buildToAddress createEntry = Except.ok none
    ∧ buildTx delegateEntry = Except.error
      (SimulateError.InvalidOperation "Invalid operation type")
    ∧ simulate_batch (fun _ => true) (Except.ok sampleBlockEnv) true AwaitOutcome.timeout
        delegateBatchRequest =
      { queued := []
        response := Except.error (SimulateError.InvalidOperation "Invalid operation type") } := by
  refine ⟨?_, ?_, ?_, ?_⟩
  · exact c1_operation_code_validation.1 callNoToEntry rfl rfl (by decide)
  · exact c1_operation_code_validation.2.1 createEntry rfl
  · exact c1_operation_code_validation.2.2.2.1 delegateEntry (by decide) (by decide) (by decide)
  · exact c1_operation_code_validation.2.2.2.2 (fun _ => true) (Except.ok sampleBlockEnv)
      true AwaitOutcome.timeout delegateBatchRequest _ rfl (by decide)

/-- C9: a null value field decodes to zero and a null data field to an empty
payload; both may be omitted without a validation error; value/data errors
arise only from a present field whose base-10 (respectively hex) decoding
fails. -/
theorem c9_null_value_and_data_fields :
    (∀ (r : TraceRequestSingle) (tx : SimulationTx), buildTx r = Except.ok tx →
      r.value = none → tx.value = 0)
    ∧ (∀ (r : TraceRequestSingle) (tx : SimulationTx), buildTx r = Except.ok tx →
      r.data = none → tx.data = [])
    ∧ (∀ (r : TraceRequestSingle) (m : String),
      buildTx r = Except.error (SimulateError.Uint256ParseError m) →
      ∃ s, r.value = some s
        ∧ parse_u256 s = Except.error (SimulateError.Uint256ParseError m))
    ∧ (∀ (r : TraceRequestSingle) (m : String),
      buildTx r = Except.error (SimulateError.HexDecodeError m) →
      ∃ s, r.data = some s ∧ hexDecode s = Except.error m)
    ∧ (∀ (r : TraceRequestSingle) (a : Address) (topt : Option Address),
      r.value = none → r.data = none →
      parse_address r.from_addr = Except.ok a →
      buildToAddress r = Except.ok topt →
      (buildTx r).isOk = true) := by
  refine ⟨?_, ?_, ?_, ?_, ?_⟩
  · intro r tx htx0 hval
    obtain ⟨a, topt, v, d, _, _, hv, _, htx⟩ := buildTx_ok_inversion r tx htx0
    rw [hval] at hv
    simp only [parseValueField, Except.ok.injEq] at hv
    rw [htx]
    exact hv.symm
  · intro r tx htx0 hdat
    obtain ⟨a, topt, v, d, _, _, _, hd, htx⟩ := buildTx_ok_inversion r tx htx0
    rw [hdat] at hd
    simp only [parseDataField, Except.ok.injEq] at hd
    rw [htx]
    exact hd.symm
  · intro r m h
    rcases buildTx_error_inversion r _ h with h1 | h1 | h1 | h1
    · obtain ⟨m2, hm⟩ := parse_address_error_shape _ _ h1
      exact absurd hm (by simp)
    · rcases buildToAddress_error_shape r _ h1 with ⟨m2, hm⟩ | ⟨m2, hm⟩ <;>
        exact absurd hm (by simp)
    · exact parseValueField_error_shape _ _ h1
    · obtain ⟨s, m2, _, _, hm⟩ := parseDataField_error_shape _ _ h1
      exact absurd hm (by simp)
  · intro r m h
    rcases buildTx_error_inversion r _ h with h1 | h1 | h1 | h1
    · obtain ⟨m2, hm⟩ := parse_address_error_shape _ _ h1
      exact absurd hm (by simp)
    · rcases buildToAddress_error_shape r _ h1 with ⟨m2, hm⟩ | ⟨m2, hm⟩ <;>
        exact absurd hm (by simp)
    · obtain ⟨s, hs, hp⟩ := parseValueField_error_shape _ _ h1
      obtain ⟨m2, hm⟩ := parse_u256_error_shape _ _ hp
      exact absurd hm (by simp)
    · obtain ⟨s, m2, hs, hhex, hm⟩ := parseDataField_error_shape _ _ h1
      have hm2 : m2 = m := (SimulateError.HexDecodeError.injEq .. ▸ hm.symm)
      exact ⟨s, hs, hm2 ▸ hhex⟩
  · intro r a topt hval hdat hpa hto
    unfold buildTx
    rw [hpa, hto, hval, hdat]
    rfl

/-- C9 witness: the null-fields entry validates to value 0 and empty data;
a bad base-10 value and a bad hex payload each fail with the matching
decode error on the present field. -/
theorem c9_null_value_and_data_fields_witness :
    nullFieldsTx.value = 0
    ∧ nullFieldsTx.data = []
    ∧ (∃ s, badValueEntry.value = some s
        ∧ parse_u256 s = Except.error
            (SimulateError.Uint256ParseError "Invalid uint256 radix of decimal format: 10f0"))
    ∧ (∃ s, badDataEntry.data = some s ∧ hexDecode s = Except.error "Invalid hex string: zz")
    ∧ (buildTx nullFieldsEntry).isOk = true := by
  refine ⟨?_, ?_, ?_, ?_, ?_⟩
  · exact c9_null_value_and_data_fields.1 nullFieldsEntry nullFieldsTx (by decide) rfl
  · exact c9_null_value_and_data_fields.2.1 nullFieldsEntry nullFieldsTx (by decide) rfl
  · exact c9_null_value_and_data_fields.2.2.1 badValueEntry _ (by decide)
  · exact c9_null_value_and_data_fields.2.2.2.1 badDataEntry _ (by decide)
  · exact c9_null_value_and_data_fields.2.2.2.2 nullFieldsEntry 170 (some 170) rfl rfl
      (by decide) (by decide)

/-- C2 counterexample: the timeout is not reported as an error class
distinct from a simulation error — the frontend maps an elapsed timeout to
the very `SimulationError` constructor of the error taxonomy, rendered with
the "Simulation error" prefix. -/
theorem c2_timeout_error_class_counterexample :
    awaitResponse AwaitOutcome.timeout =
      Except.error (SimulateError.SimulationError "Trace request timed out")
    ∧ (SimulateError.SimulationError "Trace request timed out").isSimulationClass = true
    ∧ respond (Except.error (SimulateError.SimulationError "Trace request timed out")) =
        { status := 400, error_body := some "Simulation error: Trace request timed out" } := by
  exact ⟨rfl, rfl, by decide⟩

/-- C2 amended: on timeout the frontend reports
`SimulationError "Trace request timed out"` and on a closed response
channel `SimulationError "Response channel closed"`; the two reports are
distinct values (distinguished only by message text, both being of the
simulation-error class), and a delivered response is passed through. -/
theorem c2_timeout_and_closed_messages :
    awaitResponse AwaitOutcome.timeout =
      Except.error (SimulateError.SimulationError "Trace request timed out")
    ∧ awaitResponse AwaitOutcome.closed =
      Except.error (SimulateError.SimulationError "Response channel closed")
    ∧ awaitResponse AwaitOutcome.timeout ≠ awaitResponse AwaitOutcome.closed
    ∧ ∀ r, awaitResponse (AwaitOutcome.received r) = Except.ok r := by
  exact ⟨rfl, rfl, by decide, fun r => rfl⟩

/-! Token-collection lemmas: the executor's push-if-new loop computes the
first-appearance deduplication of the non-native token stream. -/

theorem pushToken_eq (toks : List Address) (t : Address) :
    pushToken toks t = if t = NATIVE_TOKEN_ADDRESS then toks else pushNew toks t := by
  unfold pushToken pushNew
  by_cases h1 : t = NATIVE_TOKEN_ADDRESS
  · simp [h1]
  · by_cases h2 : t ∈ toks <;> simp [h1, h2]

theorem collectTransfers_eq (transfers : List AssetTransfer) :
    ∀ toks, collectTransfers toks transfers =
      ((transfers.map (fun t => t.token)).filter
        (fun a => a ≠ NATIVE_TOKEN_ADDRESS)).foldl pushNew toks := by
  induction transfers with
  | nil => intro toks; rfl
  | cons tr rest ih =>
    intro toks
    show collectTransfers (pushToken toks tr.token) rest = _
    rw [pushToken_eq, List.map_cons]
    by_cases h : tr.token = NATIVE_TOKEN_ADDRESS
    · rw [if_pos h, List.filter_cons_of_neg (by simp [h])]
      exact ih toks
    · rw [if_neg h, List.filter_cons_of_pos (by simp [h]), List.foldl_cons]
      exact ih (pushNew toks tr.token)

theorem foldl_pushNew_eq (l : List Address) :
    ∀ acc, l.foldl pushNew acc =
      acc ++ firstAppearances (l.filter (fun b => b ∉ acc)) := by
  induction l with
  | nil => intro acc; simp [firstAppearances]
  | cons t rest ih =>
    intro acc
    by_cases h : t ∈ acc
    · simp only [List.foldl_cons, pushNew, if_pos h]
      rw [List.filter_cons_of_neg (by simp [h])]
      exact ih acc
    · simp only [List.foldl_cons, pushNew, if_neg h]
      rw [List.filter_cons_of_pos (by simp [h])]
      rw [ih (acc ++ [t])]
      have hfil : rest.filter (fun b => b ∉ acc ++ [t]) =
          (rest.filter (fun b => b ∉ acc)).filter (fun b => b ≠ t) := by
        rw [List.filter_filter]
        apply List.filter_congr
        intro b _
        simp [List.mem_append, not_or, and_comm]
      rw [hfil]
      rw [firstAppearances, List.append_assoc, List.singleton_append]

theorem collectTokens_go
    (result : List (Except EvmError (ExecutionResult × TxTraceOutput))) :
    ∀ acc,
      result.foldl
        (fun tokens r =>
          match r with
          | Except.ok (trace_result, trace_output) =>
            if trace_result.is_success then
              collectTransfers tokens trace_output.asset_transfers
            else tokens
          | Except.error _ => tokens)
        acc
      = ((successTokens result).filter
          (fun a => a ≠ NATIVE_TOKEN_ADDRESS)).foldl pushNew acc := by
  induction result with
  | nil => intro acc; rfl
  | cons r rest ih =>
    intro acc
    cases r with
    | error e =>
      simp only [List.foldl_cons]
      exact ih acc
    | ok pr =>
      obtain ⟨er, out⟩ := pr
      cases er with
      | success =>
        show List.foldl _ (collectTransfers acc out.asset_transfers) rest = _
        rw [ih (collectTransfers acc out.asset_transfers)]
        show _ = List.foldl pushNew acc
          ((out.asset_transfers.map (fun t => t.token) ++ successTokens rest).filter
            (fun a => a ≠ NATIVE_TOKEN_ADDRESS))
        rw [List.filter_append, List.foldl_append, collectTransfers_eq]
      | revert =>
        show List.foldl _ acc rest = _
        rw [ih acc]
        rfl
      | halt =>
        show List.foldl _ acc rest = _
        rw [ih acc]
        rfl

theorem collectTokens_eq
    (result : List (Except EvmError (ExecutionResult × TxTraceOutput))) :
    collectTokens result =
      firstAppearances ((successTokens result).filter
        (fun a => a ≠ NATIVE_TOKEN_ADDRESS)) := by
  unfold collectTokens
  rw [collectTokens_go result [], foldl_pushNew_eq]
  simp

theorem mem_firstAppearances_iff (a : Address) (l : List Address) :
    a ∈ firstAppearances l ↔ a ∈ l := by
  induction l using firstAppearances.induct with
  | case1 => simp [firstAppearances]
  | case2 b rest ih =>
    rw [firstAppearances]
    by_cases h : a = b
    · simp [h]
    · simp only [List.mem_cons, h, false_or, ih, List.mem_filter]
      simp [h]

theorem nodup_firstAppearances (l : List Address) : (firstAppearances l).Nodup := by
  induction l using firstAppearances.induct with
  | case1 => simp [firstAppearances]
  | case2 b rest ih =>
    rw [firstAppearances]
    refine List.nodup_cons.mpr ⟨?_, ih⟩
    intro hmem
    rw [mem_firstAppearances_iff] at hmem
    simp at hmem

/-- C7: the asset-address set handed to the token resolver is exactly the
first-appearance deduplication of the transfer tokens of successful
outcomes with the native sentinel removed: it is duplicate-free, contains
only non-native addresses referenced by successful outcomes, and contains
every such address. -/
theorem c7_token_set_collection
    (result : List (Except EvmError (ExecutionResult × TxTraceOutput))) :
    collectTokens result =
      firstAppearances ((successTokens result).filter
        (fun a => a ≠ NATIVE_TOKEN_ADDRESS))
    ∧ (collectTokens result).Nodup
    ∧ (∀ a, a ∈ collectTokens result →
        a ≠ NATIVE_TOKEN_ADDRESS ∧ a ∈ successTokens result)
    ∧ (∀ a, a ∈ successTokens result → a ≠ NATIVE_TOKEN_ADDRESS →
        a ∈ collectTokens result) := by
  refine ⟨collectTokens_eq result, ?_, ?_, ?_⟩
  · rw [collectTokens_eq]
    exact nodup_firstAppearances _
  · intro a ha
    rw [collectTokens_eq, mem_firstAppearances_iff, List.mem_filter] at ha
    refine ⟨by simpa using ha.2, ha.1⟩
  · intro a ha hn
    rw [collectTokens_eq, mem_firstAppearances_iff, List.mem_filter]
    exact ⟨ha, by simpa using hn⟩

/-- C7 witness: in the sample outcome list, token 5 is collected (non-native,
referenced by a successful outcome) and token 7 — referenced later in the
same successful outcome — is collected as well; token 9, referenced only by
a reverted transaction, satisfies membership in neither direction trivially. -/
theorem c7_token_set_collection_witness :
    (5 ≠ NATIVE_TOKEN_ADDRESS ∧ 5 ∈ successTokens sampleOutcomes)
    ∧ 7 ∈ collectTokens sampleOutcomes := by
  constructor
  · exact (c7_token_set_collection sampleOutcomes).2.2.1 5 (by decide)
  · exact (c7_token_set_collection sampleOutcomes).2.2.2 7 (by decide) (by decide)

/-! Executor lemmas. -/

theorem buildTokenMapGo_isSome (tokens : List Address) (infos : List TokenInfo) :
    ∀ (i : Nat) (m : TokenMap), i + infos.length ≤ tokens.length →
      (buildTokenMapGo tokens infos i m).isSome = true := by
  induction infos with
  | nil => intro i m _; rfl
  | cons info rest ih =>
    intro i m hle
    have hi : i < tokens.length := by
      simp only [List.length_cons] at hle
      omega
    unfold buildTokenMapGo
    rw [List.get?_eq_get hi]
    exact ih (i + 1) (mapInsert m (tokens.get ⟨i, hi⟩) info) (by
      simp only [List.length_cons] at hle
      omega)

theorem buildTokenMap_isSome (tokens : List Address) (infos : List TokenInfo)
    (h : infos.length = tokens.length) : (buildTokenMap tokens infos).isSome = true :=
  buildTokenMapGo_isSome tokens infos 0 [] (by omega)

theorem evmCacheOf_some_chainsMapOf (chains : List ChainInfo) (mk : ChainInfo → Simulator)
    (cid : Nat) (evm : Simulator) (h : evmCacheOf chains mk cid = some evm) :
    ∃ c, chainsMapOf chains cid = some c ∧ mk c = evm := by
  unfold evmCacheOf at h
  unfold chainsMapOf
  cases hl : (chains.filter (fun c => c.chain_id == cid)).getLast? with
  | none => rw [hl] at h; exact absurd h (by simp)
  | some c =>
    rw [hl] at h
    exact ⟨c, rfl, Option.some.inj h⟩

theorem lookupToken_mapInsert_self (m : TokenMap) (k : Address) (v : TokenInfo) :
    lookupToken (mapInsert m k v) k = some v := by
  simp [lookupToken, mapInsert, List.find?]

/-- Totality of the executor iteration on a startup-built state with a
length-preserving resolver: exactly one response, one delivery attempt. -/
theorem executorStepE_wf (chains : List ChainInfo) (mk : ChainInfo → Simulator)
    (resolve : List Address → Except String (List TokenInfo)) (req : TxRequest)
    (hres : ∀ ts infos, resolve ts = Except.ok infos → infos.length = ts.length) :
    ∃ resp, executorStepE (evmCacheOf chains mk) (chainsMapOf chains) resolve req =
      { response := some resp, sendAttempts := 1 } := by
  cases hevm : evmCacheOf chains mk req.chain_id with
  | none =>
    exact ⟨{ result := Except.error
               ("EVM instance not found for chain " ++ toString req.chain_id)
             token_infos := none }, by simp [executorStepE, hevm]⟩
  | some evm =>
    obtain ⟨c, hch, _⟩ := evmCacheOf_some_chainsMapOf chains mk req.chain_id evm hevm
    cases hr : resolve (collectTokens (evm.run req.txs.transactions)) with
    | error e =>
      exact ⟨{ result := Except.error ("Failed to get token infos: " ++ e)
               token_infos := none }, by simp [executorStepE, hevm, hr]⟩
    | ok infos =>
      have hlen := hres _ _ hr
      have hbm := buildTokenMap_isSome _ _ hlen
      cases hbm2 : buildTokenMap (collectTokens (evm.run req.txs.transactions)) infos with
      | none => rw [hbm2] at hbm; exact absurd hbm (by simp)
      | some m =>
        exact ⟨{ result := Except.ok (evm.run req.txs.transactions)
                 token_infos := some (mapInsert m NATIVE_TOKEN_ADDRESS
                   { symbol := c.symbol, decimals := c.decimals }) },
          by simp [executorStepE, hevm, hr, hbm2, hch]⟩

/-- C3: when token-metadata resolution fails, the executor reports the
entire batch as failed — a batch-level error, no token map — regardless of
the individual outcomes, and the frontend turns that delivered response
into a `SimulationError` rejection rendered as HTTP 400 rather than a 200
with partial results. -/
theorem c3_token_resolution_failure_rejects_batch
    (evm_cache : Nat → Option Simulator) (chains_map : Nat → Option ChainInfo)
    (resolve : List Address → Except String (List TokenInfo))
    (req : TxRequest) (evm : Simulator) (e : String)
    (hevm : evm_cache req.chain_id = some evm)
    (hr : resolve (collectTokens (evm.run req.txs.transactions)) = Except.error e) :
    ∃ resp, (executorStepE evm_cache chains_map resolve req).response = some resp
      ∧ resp.result = Except.error ("Failed to get token infos: " ++ e)
      ∧ resp.token_infos = none
      ∧ (∀ bn, handleResponse bn resp =
          Except.error (SimulateError.SimulationError ("Failed to get token infos: " ++ e)))
      ∧ (∀ bn, respond (handleResponse bn resp) =
          { status := 400
            error_body := some
              ("Simulation error: " ++ ("Failed to get token infos: " ++ e)) }) := by
  refine ⟨{ result := Except.error ("Failed to get token infos: " ++ e)
            token_infos := none }, ?_, rfl, rfl, fun bn => rfl, fun bn => rfl⟩
  simp [executorStepE, hevm, hr]

/-- C3 witness: a resolver that always fails makes the executor report the
whole sample batch as failed and the frontend reject it with HTTP 400. -/
theorem c3_token_resolution_failure_rejects_batch_witness :
    ∃ resp, (executorStepE (fun _ => some quietSim) (fun _ => some sampleChain)
        (fun _ => Except.error "rpc down") sampleJob).response = some resp
      ∧ resp.result = Except.error ("Failed to get token infos: " ++ "rpc down")
      ∧ resp.token_infos = none
      ∧ (∀ bn, handleResponse bn resp =
          Except.error (SimulateError.SimulationError
            ("Failed to get token infos: " ++ "rpc down")))
      ∧ (∀ bn, respond (handleResponse bn resp) =
          { status := 400
            error_body := some
              ("Simulation error: " ++ ("Failed to get token infos: " ++ "rpc down")) }) :=
  c3_token_resolution_failure_rejects_batch (fun _ => some quietSim)
    (fun _ => some sampleChain) (fun _ => Except.error "rpc down") sampleJob quietSim
    "rpc down" rfl rfl

/-- C8: on a startup-built state (simulator cache and chain map constructed
from the same configuration) with a length-preserving resolver, the
executor never panics: every dequeued Job yields exactly one response with
one delivery attempt, and a Job whose network has no simulator immediately
yields the lookup-failure error response without attempting execution. -/
theorem c8_executor_never_panics (chains : List ChainInfo) (mk : ChainInfo → Simulator)
    (resolve : List Address → Except String (List TokenInfo)) (req : TxRequest)
    (hres : ∀ ts infos, resolve ts = Except.ok infos → infos.length = ts.length) :
    (executorStepE (evmCacheOf chains mk) (chainsMapOf chains) resolve req).response.isSome
        = true
    ∧ (executorStepE (evmCacheOf chains mk) (chainsMapOf chains) resolve req).sendAttempts
        = 1
    ∧ (evmCacheOf chains mk req.chain_id = none →
      executorStepE (evmCacheOf chains mk) (chainsMapOf chains) resolve req =
        { response := some
            { result := Except.error
                ("EVM instance not found for chain " ++ toString req.chain_id)
              token_infos := none }
          sendAttempts := 1 }) := by
  obtain ⟨resp, hresp⟩ := executorStepE_wf chains mk resolve req hres
  refine ⟨by rw [hresp]; rfl, by rw [hresp], ?_⟩
  intro hnone
  simp [executorStepE, hnone]

/-- C8 witness: on the sample configuration the executor produces one
response with one delivery attempt, and an unconfigured network id 999
yields the defensive lookup-failure response. -/
theorem c8_executor_never_panics_witness :
    ((executorStepE (evmCacheOf [sampleChain] (fun _ => quietSim))
        (chainsMapOf [sampleChain])
        (fun ts => Except.ok (ts.map (fun _ => sampleTokenInfo))) sampleJob).response.isSome
      = true)
    ∧ (executorStepE (evmCacheOf [sampleChain] (fun _ => quietSim))
        (chainsMapOf [sampleChain])
        (fun ts => Except.ok (ts.map (fun _ => sampleTokenInfo)))
        { chain_id := 999, txs := sampleJob.txs } =
      { response := some
          { result := Except.error ("EVM instance not found for chain " ++ toString 999)
            token_infos := none }
        sendAttempts := 1 }) := by
  constructor
  · exact (c8_executor_never_panics [sampleChain] (fun _ => quietSim)
      (fun ts => Except.ok (ts.map (fun _ => sampleTokenInfo))) sampleJob
      (fun ts infos h => by cases Except.ok.inj h; simp)).1
  · exact (c8_executor_never_panics [sampleChain] (fun _ => quietSim)
      (fun ts => Except.ok (ts.map (fun _ => sampleTokenInfo)))
      { chain_id := 999, txs := sampleJob.txs }
      (fun ts infos h => by cases Except.ok.inj h; simp)).2.2 rfl

/-- C6: whenever the executor returns a resolved token map it contains the
configured native-asset metadata under the native sentinel key; and on a
batch whose successful outcomes reference no non-native asset (with the
resolver succeeding trivially on the empty query), the returned map is
exactly the single native entry. -/
theorem c6_native_asset_entry :
    (∀ (evm_cache : Nat → Option Simulator) (chains_map : Nat → Option ChainInfo)
        (resolve : List Address → Except String (List TokenInfo))
        (req : TxRequest) (resp : TraceResponse) (m : TokenMap),
      (executorStepE evm_cache chains_map resolve req).response = some resp →
      resp.token_infos = some m →
      ∃ ci, chains_map req.chain_id = some ci
        ∧ lookupToken m NATIVE_TOKEN_ADDRESS =
            some { symbol := ci.symbol, decimals := ci.decimals })
    ∧ (∀ (chains : List ChainInfo) (mk : ChainInfo → Simulator)
        (resolve : List Address → Except String (List TokenInfo))
        (req : TxRequest) (evm : Simulator),
      evmCacheOf chains mk req.chain_id = some evm →
      resolve [] = Except.ok [] →
      (∀ a, a ∈ successTokens (evm.run req.txs.transactions) → a = NATIVE_TOKEN_ADDRESS) →
      ∃ ci, chainsMapOf chains req.chain_id = some ci
        ∧ (executorStepE (evmCacheOf chains mk) (chainsMapOf chains) resolve req).response
            = some { result := Except.ok (evm.run req.txs.transactions)
                     token_infos := some [(NATIVE_TOKEN_ADDRESS,
                       { symbol := ci.symbol, decimals := ci.decimals })] }) := by
  constructor
  · intro evm_cache chains_map resolve req resp m h1 h2
    unfold executorStepE at h1
    cases hevm : evm_cache req.chain_id with
    | none =>
      rw [hevm] at h1
      simp only [Option.some.injEq] at h1
      rw [← h1] at h2
      exact absurd h2 (by simp)
    | some evm =>
      rw [hevm] at h1
      simp only at h1
      cases hr : resolve (collectTokens (evm.run req.txs.transactions)) with
      | error e =>
        rw [hr] at h1
        simp only [Option.some.injEq] at h1
        rw [← h1] at h2
        exact absurd h2 (by simp)
      | ok infos =>
        rw [hr] at h1
        simp only at h1
        cases hbm : buildTokenMap (collectTokens (evm.run req.txs.transactions)) infos with
        | none => rw [hbm] at h1; exact absurd h1 (by simp)
        | some mm =>
          rw [hbm] at h1
          simp only at h1
          cases hcm : chains_map req.chain_id with
          | none => rw [hcm] at h1; exact absurd h1 (by simp)
          | some ci =>
            rw [hcm] at h1
            simp only [Option.some.injEq] at h1
            rw [← h1] at h2
            simp only [Option.some.injEq] at h2
            refine ⟨ci, rfl, ?_⟩
            rw [← h2]
            exact lookupToken_mapInsert_self mm NATIVE_TOKEN_ADDRESS _
  · intro chains mk resolve req evm hevm hres0 hnat
    obtain ⟨ci, hch, _⟩ := evmCacheOf_some_chainsMapOf chains mk req.chain_id evm hevm
    have hfil : (successTokens (evm.run req.txs.transactions)).filter
        (fun a => a ≠ NATIVE_TOKEN_ADDRESS) = [] := by
      rw [List.filter_eq_nil_iff]
      intro a ha
      simp [hnat a ha]
    have htok : collectTokens (evm.run req.txs.transactions) = [] := by
      rw [collectTokens_eq, hfil]
      simp [firstAppearances]
    refine ⟨ci, hch, ?_⟩
    simp [executorStepE, hevm, htok, hres0, hch, buildTokenMap, buildTokenMapGo, mapInsert]

/-- C6 witness: a quiet batch (successful transactions, no transfers) on
the sample configuration yields a token map holding exactly the native
entry, and the generic native lookup succeeds on the concrete output. -/
theorem c6_native_asset_entry_witness :
    (∃ ci, (fun _ => some sampleChain : Nat → Option ChainInfo) sampleJob.chain_id = some ci
      ∧ lookupToken [(NATIVE_TOKEN_ADDRESS, { symbol := "ETH", decimals := 18 })]
          NATIVE_TOKEN_ADDRESS = some { symbol := ci.symbol, decimals := ci.decimals })
    ∧ (∃ ci, chainsMapOf [sampleChain] sampleJob.chain_id = some ci
      ∧ (executorStepE (evmCacheOf [sampleChain] (fun _ => quietSim))
          (chainsMapOf [sampleChain]) (fun _ => Except.ok []) sampleJob).response
        = some { result := Except.ok (quietSim.run sampleJob.txs.transactions)
                 token_infos := some [(NATIVE_TOKEN_ADDRESS,
                   { symbol := ci.symbol, decimals := ci.decimals })] }) := by
  constructor
  · exact c6_native_asset_entry.1 (fun _ => some quietSim) (fun _ => some sampleChain)
      (fun _ => Except.ok []) sampleJob
      { result := Except.ok (quietSim.run sampleJob.txs.transactions)
        token_infos := some [(NATIVE_TOKEN_ADDRESS, { symbol := "ETH", decimals := 18 })] }
      [(NATIVE_TOKEN_ADDRESS, { symbol := "ETH", decimals := 18 })] rfl rfl
  · exact c6_native_asset_entry.2 [sampleChain] (fun _ => quietSim) (fun _ => Except.ok [])
      sampleJob quietSim rfl rfl (fun a ha => absurd ha (List.not_mem_nil a))

/-! Executor-loop lemmas. -/

theorem mainLoop_never_length (step : TxRequest → ExecEffect) (alive : Nat → Bool) :
    ∀ (jobs : List TxRequest) (i : Nat),
      (mainLoop step (fun _ => false) alive jobs i).length = jobs.length := by
  intro jobs
  induction jobs with
  | nil => intro i; rfl
  | cons j rest ih => intro i; simp [mainLoop, ih]

theorem mainLoop_map_step (step : TxRequest → ExecEffect) (alive : Nat → Bool) :
    ∀ (jobs : List TxRequest) (i : Nat),
      (mainLoop step (fun _ => false) alive jobs i).map (fun p => p.2.1) =
        jobs.map step := by
  intro jobs
  induction jobs with
  | nil => intro i; rfl
  | cons j rest ih => intro i; simp [mainLoop, ih]

theorem mainLoop_alive_irrelevant (step : TxRequest → ExecEffect)
    (shutdown alive alive2 : Nat → Bool) :
    ∀ (jobs : List TxRequest) (i : Nat),
      (mainLoop step shutdown alive jobs i).map (fun p => (p.1, p.2.1)) =
        (mainLoop step shutdown alive2 jobs i).map (fun p => (p.1, p.2.1)) := by
  intro jobs
  induction jobs with
  | nil => intro i; rfl
  | cons j rest ih =>
    intro i
    by_cases hsd : shutdown i = true
    · simp [mainLoop, hsd]
    · simp only [Bool.not_eq_true] at hsd
      simp [mainLoop, hsd, ih (i + 1)]

theorem mainLoop_idx_lt (step : TxRequest → ExecEffect) (shutdown alive : Nat → Bool) :
    ∀ (jobs : List TxRequest) (i : Nat) p,
      p ∈ mainLoop step shutdown alive jobs i → p.1 < i + jobs.length := by
  intro jobs
  induction jobs with
  | nil => intro i p hp; exact absurd hp (by simp [mainLoop])
  | cons j rest ih =>
    intro i p hp
    by_cases hsd : shutdown i = true
    · rw [show mainLoop step shutdown alive (j :: rest) i = [] by simp [mainLoop, hsd]] at hp
      exact absurd hp (List.not_mem_nil p)
    · simp only [Bool.not_eq_true] at hsd
      rw [show mainLoop step shutdown alive (j :: rest) i =
          (i, step j, (step j).response.isSome && alive i) ::
            mainLoop step shutdown alive rest (i + 1) by simp [mainLoop, hsd]] at hp
      rcases List.mem_cons.mp hp with h | h
      · rw [h]; simp
      · have := ih (i + 1) p h
        simp only [List.length_cons]
        omega

theorem mainLoop_take (step : TxRequest → ExecEffect) (shutdown alive : Nat → Bool) :
    ∀ (jobs : List TxRequest) (i n : Nat), n ≤ jobs.length →
      (∀ k, k < n → shutdown (i + k) = false) →
      (n = jobs.length ∨ shutdown (i + n) = true) →
      mainLoop step shutdown alive jobs i =
        mainLoop step (fun _ => false) alive (jobs.take n) i := by
  intro jobs
  induction jobs with
  | nil => intro i n _ _ _; simp [mainLoop]
  | cons j rest ih =>
    intro i n hle hfalse hlast
    cases n with
    | zero =>
      have hsd : shutdown i = true := by
        rcases hlast with h | h
        · exact absurd h (by simp)
        · simpa using h
      simp [mainLoop, hsd]
    | succ m =>
      have h0 : shutdown i = false := by simpa using hfalse 0 (Nat.succ_pos m)
      rw [List.take_succ_cons]
      simp only [mainLoop, h0, Bool.false_eq_true, if_false]
      congr 1
      refine ih (i + 1) m (by simpa using hle) ?_ ?_
      · intro k hk
        have h1 := hfalse (k + 1) (by omega)
        have h2 : i + (k + 1) = i + 1 + k := by omega
        rw [h2] at h1
        exact h1
      · rcases hlast with h | h
        · exact Or.inl (by simpa using h)
        · have h2 : i + (m + 1) = i + 1 + m := by omega
          rw [h2] at h
          exact Or.inr h

/-- C5: each dequeued Job makes at most one delivery attempt in every
branch; on a startup-built state with a length-preserving resolver it makes
exactly one attempt carrying exactly one response; the loop's produced
responses do not depend on whether deliveries succeed (failures are
swallowed, never retried), and with no shutdown the loop produces exactly
one effect per dequeued Job, in order. -/
theorem c5_one_result_one_delivery :
    (∀ (evm_cache : Nat → Option Simulator) (chains_map : Nat → Option ChainInfo)
        (resolve : List Address → Except String (List TokenInfo)) (req : TxRequest),
      (executorStepE evm_cache chains_map resolve req).sendAttempts ≤ 1)
    ∧ (∀ (chains : List ChainInfo) (mk : ChainInfo → Simulator)
        (resolve : List Address → Except String (List TokenInfo)) (req : TxRequest),
      (∀ ts infos, resolve ts = Except.ok infos → infos.length = ts.length) →
      (executorStepE (evmCacheOf chains mk) (chainsMapOf chains) resolve req).sendAttempts
          = 1
      ∧ (executorStepE (evmCacheOf chains mk) (chainsMapOf chains) resolve
          req).response.isSome = true)
    ∧ (∀ (step : TxRequest → ExecEffect) (shutdown alive alive2 : Nat → Bool)
        (jobs : List TxRequest) (i : Nat),
      (mainLoop step shutdown alive jobs i).map (fun p => (p.1, p.2.1)) =
        (mainLoop step shutdown alive2 jobs i).map (fun p => (p.1, p.2.1)))
    ∧ (∀ (step : TxRequest → ExecEffect) (alive : Nat → Bool)
        (jobs : List TxRequest) (i : Nat),
      (mainLoop step (fun _ => false) alive jobs i).map (fun p => p.2.1) =
        jobs.map step) := by
  refine ⟨?_, ?_, ?_, ?_⟩
  · intro evm_cache chains_map resolve req
    unfold executorStepE
    cases hevm : evm_cache req.chain_id with
    | none => simp
    | some evm =>
      simp only
      cases hr : resolve (collectTokens (evm.run req.txs.transactions)) with
      | error e => simp [hr]
      | ok infos =>
        simp only [hr]
        cases hbm : buildTokenMap (collectTokens (evm.run req.txs.transactions)) infos with
        | none => simp [hbm]
        | some m =>
          simp only [hbm]
          cases chains_map req.chain_id <;> simp
  · intro chains mk resolve req hres
    obtain ⟨resp, hresp⟩ := executorStepE_wf chains mk resolve req hres
    exact ⟨by rw [hresp], by rw [hresp]; rfl⟩
  · intro step shutdown alive alive2 jobs i
    exact mainLoop_alive_irrelevant step shutdown alive alive2 jobs i
  · intro step alive jobs i
    exact mainLoop_map_step step alive jobs i

/-- C5 witness: on the sample configuration the bound and the exact count
hold, and on a two-job queue the produced responses agree whether every
delivery succeeds or every delivery fails. -/
theorem c5_one_result_one_delivery_witness :
    (executorStepE (fun _ => none) (fun _ => none)
        (fun _ => Except.error "x") sampleJob).sendAttempts ≤ 1
    ∧ ((executorStepE (evmCacheOf [sampleChain] (fun _ => quietSim))
        (chainsMapOf [sampleChain])
        (fun ts => Except.ok (ts.map (fun _ => sampleTokenInfo))) sampleJob).sendAttempts
          = 1
      ∧ (executorStepE (evmCacheOf [sampleChain] (fun _ => quietSim))
          (chainsMapOf [sampleChain])
          (fun ts => Except.ok (ts.map (fun _ => sampleTokenInfo)))
          sampleJob).response.isSome = true)
    ∧ (mainLoop (fun _ => { response := none, sendAttempts := 0 }) (fun _ => false)
        (fun _ => true) [sampleJob, sampleJob] 0).map (fun p => (p.1, p.2.1)) =
      (mainLoop (fun _ => { response := none, sendAttempts := 0 }) (fun _ => false)
        (fun _ => false) [sampleJob, sampleJob] 0).map (fun p => (p.1, p.2.1))
    ∧ (mainLoop (fun _ => { response := none, sendAttempts := 0 }) (fun _ => false)
        (fun _ => true) [sampleJob, sampleJob] 0).map (fun p => p.2.1) =
      [sampleJob, sampleJob].map (fun _ => { response := none, sendAttempts := 0 }) := by
  refine ⟨?_, ?_, ?_, ?_⟩
  · exact c5_one_result_one_delivery.1 (fun _ => none) (fun _ => none)
      (fun _ => Except.error "x") sampleJob
  · exact c5_one_result_one_delivery.2.1 [sampleChain] (fun _ => quietSim)
      (fun ts => Except.ok (ts.map (fun _ => sampleTokenInfo))) sampleJob
      (fun ts infos h => by cases Except.ok.inj h; simp)
  · exact c5_one_result_one_delivery.2.2.1 (fun _ => { response := none, sendAttempts := 0 })
      (fun _ => false) (fun _ => true) (fun _ => false) [sampleJob, sampleJob] 0
  · exact c5_one_result_one_delivery.2.2.2 (fun _ => { response := none, sendAttempts := 0 })
      (fun _ => true) [sampleJob, sampleJob] 0

/-- C10: the shutdown signal is inspected only after a Job has been
dequeued: when the first set signal is observed at iteration n (with at
least n+1 Jobs queued), the loop output covers exactly the first n Jobs —
the Job dequeued at iteration n is discarded with no execution effect and
no delivery attempt — and its submitter observes the closed-channel error,
not a timeout. -/
theorem c10_shutdown_discards_dequeued_job (step : TxRequest → ExecEffect)
    (shutdown alive : Nat → Bool) (jobs : List TxRequest) (n : Nat)
    (hlt : n < jobs.length)
    (hfalse : ∀ k, k < n → shutdown k = false)
    (hn : shutdown n = true) :
    mainLoop step shutdown alive jobs 0 =
      mainLoop step (fun _ => false) alive (jobs.take n) 0
    ∧ (mainLoop step shutdown alive jobs 0).length = n
    ∧ (∀ p, p ∈ mainLoop step shutdown alive jobs 0 → p.1 < n)
    ∧ awaitResponse AwaitOutcome.closed =
        Except.error (SimulateError.SimulationError "Response channel closed") := by
  have htake := mainLoop_take step shutdown alive jobs 0 n (Nat.le_of_lt hlt)
    (fun k hk => by simpa using hfalse k hk) (Or.inr (by simpa using hn))
  refine ⟨htake, ?_, ?_, rfl⟩
  · rw [htake, mainLoop_never_length, List.length_take]
    omega
  · intro p hp
    rw [htake] at hp
    have := mainLoop_idx_lt step (fun _ => false) alive (jobs.take n) 0 p hp
    rw [List.length_take] at this
    omega

/-- C10 witness: with two queued Jobs and the shutdown signal first
observed at iteration 1, only Job 0 is processed; the dequeued second Job
produces no loop entry. -/
theorem c10_shutdown_discards_dequeued_job_witness :
    mainLoop (fun _ => { response := none, sendAttempts := 0 }) (fun k => k == 1)
        (fun _ => true) [sampleJob, sampleJob] 0 =
      mainLoop (fun _ => { response := none, sendAttempts := 0 }) (fun _ => false)
        (fun _ => true) ([sampleJob, sampleJob].take 1) 0
    ∧ (mainLoop (fun _ => { response := none, sendAttempts := 0 }) (fun k => k == 1)
        (fun _ => true) [sampleJob, sampleJob] 0).length = 1 := by
  have h := c10_shutdown_discards_dequeued_job
    (fun _ => { response := none, sendAttempts := 0 }) (fun k => k == 1)
    (fun _ => true) [sampleJob, sampleJob] 1 (by decide)
    (by decide) (by decide)
  exact ⟨h.1, h.2.1⟩

/-- C4: a validated batch produces exactly one prepared transaction per
request entry; the simulator produces one outcome per transaction; the
frontend renders one result per outcome at the same position, each outcome
independently reported — a failed transaction yields an error entry while
the others keep their own status. -/
theorem c4_one_outcome_per_request (sim : Simulator) (reqs : List TraceRequestSingle)
    (txs : List SimulationTx) (bn : Nat)
    (hval : validateRequests reqs = Except.ok txs) :
    (renderResults bn (sim.run txs)).length = reqs.length
    ∧ (∀ i r, (sim.run txs).get? i = some r →
        (renderResults bn (sim.run txs)).get? i = some (renderResult bn r))
    ∧ (∀ er tr, (renderResult bn (Except.ok (er, tr))).error = none
        ∧ (renderResult bn (Except.ok (er, tr))).execution_result = some er
        ∧ (renderResult bn (Except.ok (er, tr))).trace_result = some tr)
    ∧ (∀ e, (renderResult bn (Except.error e)).error = some ("Trace Error:" ++ e)
        ∧ (renderResult bn (Except.error e)).execution_result = none) := by
  refine ⟨?_, ?_, fun er tr => ⟨rfl, rfl, rfl⟩, fun e => ⟨rfl, rfl⟩⟩
  · rw [renderResults, List.length_map, sim.run_length]
    exact validateRequests_length reqs txs hval
  · intro i r hr
    rw [renderResults, List.get?_map, hr]
    rfl

/-- C4 witness: a one-entry batch validates to one transaction; an
all-failing simulator still yields one rendered outcome, at position 0,
carrying its own error text. -/
theorem c4_one_outcome_per_request_witness :
    (renderResults 100 (failingSim.run [nullFieldsTx])).length = [nullFieldsEntry].length
    ∧ (renderResults 100 (failingSim.run [nullFieldsTx])).get? 0 =
        some (renderResult 100 (Except.error "execution reverted")) := by
  have h := c4_one_outcome_per_request failingSim [nullFieldsEntry] [nullFieldsTx] 100
    (by decide)
  exact ⟨h.1, h.2.1 0 (Except.error "execution reverted") rfl⟩

end SimulateEvm
